import Mathlib

/-!
Verification of the physiological-signal streaming pipeline of the
monitor-deportivo-dash repository.

The development shallow-embeds the pipeline code:

* `src/simulator.py` — the high-fidelity 50 Hz producer: PQRST ECG
  synthesis, knee-angle IMU synthesis, and the sliding-window rewrite of
  the shared CSV stream file (`MAX_SAMPLES = 250`).
* `src/app.py` — the in-process producer thread (`run_simulator`,
  `generate_ecg_sample`, `generate_imu_sample`, append-only writes) and
  the consumer callbacks (`update_main_dashboard_auto`,
  `monitor_patient_health`, `update_sensor_charts`) that read the stream
  file with `pd.read_csv(...).tail(...)` and reduce the status columns.
* `src/sensors.py` — the offline peak-based BPM estimator
  (`calculate_bpm`, `load_ecg_and_compute_bpm`); the call to
  `scipy.signal.find_peaks` is an external library routine and is
  modelled after scipy's documented algorithm.

Numbers are embedded as rationals (`ℚ`); the Gaussian noise draws and the
values of `np.sin` / `np.cos` / `np.exp` are passed as explicit arguments
(for trigonometric values together with the hypothesis that they lie in
`[-1, 1]`), so that every definition stays executable.
-/

namespace MonitorDash

/-- Values of the `status_ecg` column of the stream file. -/
inductive EcgStatus
  | NORMAL
  | RED_FLAG_ARRHYTHMIA
deriving DecidableEq, Repr

/-- Values of the `status_imu` column of the stream file. -/
inductive ImuStatus
  | NORMAL
  | RED_FLAG_FATIGUE
deriving DecidableEq, Repr

/-! ### The bounded transport of `src/simulator.py` (`run_simulator`) -/

/-- Window capacity of the `simulator.py` producer (`MAX_SAMPLES = 250`,
src/simulator.py line 85). -/
def MAX_SAMPLES : Nat := 250

/-- One pass of the sliding-window file rewrite inside `run_simulator`
(src/simulator.py lines 96-112).  `lines` is the whole file content as a
list of lines, header first.  The code rereads the file, writes back
`lines[0]` (the header), then `lines[-(MAX_SAMPLES-1):]` when
`len(lines) > MAX_SAMPLES` and `lines[1:]` otherwise, and finally appends
the freshly generated row.  `lines.take 1` models `f.write(lines[0])`
(the file always starts with the header written by `init_stream_file`),
and `lines.drop (lines.length - k)` models the Python slice
`lines[-k:]`. -/
def simulatorAppend {α : Type} (lines : List α) (newRow : α) : List α :=
  lines.take 1 ++
    (if MAX_SAMPLES < lines.length then
      lines.drop (lines.length - (MAX_SAMPLES - 1))
    else
      lines.drop 1) ++ [newRow]

/-- The stream file after `init_stream_file()` followed by `n` producer
appends, each line labelled by its append index: `0` stands for the
header row and the i-th appended sample is labelled `i`. -/
def simulatorRun : Nat → List Nat
  | 0 => [0]
  | n + 1 => simulatorAppend (simulatorRun n) (n + 1)

/-- Reading the window back from the file: consumers parse the CSV with
`pd.read_csv`, which yields the data rows without the header line. -/
def read_window {α : Type} (lines : List α) : List α := lines.drop 1

/-- Closed form of the stream file: after `n` appends it is the header
followed by the last `min n 250` appended samples, in append order. -/
lemma simulatorRun_closed (n : Nat) :
    simulatorRun n = 0 :: List.range' (n - min n 250 + 1) (min n 250) := by
  induction n with
  | zero => rfl
  | succ n ih =>
    rw [simulatorRun, ih]
    unfold simulatorAppend MAX_SAMPLES
    rcases Nat.lt_or_ge n 250 with h | h
    · have h1 : min n 250 = n := by omega
      have h2 : min (n + 1) 250 = n + 1 := by omega
      have h3 : n - n + 1 = 1 := by omega
      have h4 : n + 1 - (n + 1) + 1 = 1 := by omega
      rw [h1, h2, h3, h4]
      rw [if_neg (by simp only [List.length_cons, List.length_range']; omega)]
      simp only [List.take_cons, List.take_zero, List.drop_succ_cons, List.drop_zero]
      conv_rhs => rw [List.range'_concat]
      simp [Nat.add_comm]
    · have h1 : min n 250 = 250 := by omega
      have h2 : min (n + 1) 250 = 250 := by omega
      rw [h1, h2]
      have hlen : (0 :: List.range' (n - 250 + 1) 250).length = 251 := by
        simp [List.length_range']
      rw [if_pos (by rw [hlen]; omega)]
      rw [hlen]
      have hd : (251 : Nat) - (250 - 1) = 2 := by omega
      rw [hd]
      conv_rhs => rw [show (250 : Nat) = 249 + 1 from rfl, List.range'_concat]
      rw [show (250 : Nat) = 249 + 1 from rfl, List.range'_succ]
      simp only [List.drop_succ_cons, List.drop_zero, List.take_cons, List.take_zero]
      have e1 : n - (249 + 1) + 1 + 1 = n + 1 - (249 + 1) + 1 := by omega
      have e2 : n + 1 - (249 + 1) + 1 + 1 * 249 = n + 1 := by omega
      rw [e1, e2]
      simp

/-- C1: starting from an initialized transport with window capacity
K = 250, after `n` consecutive producer appends the window read back
holds `min n 250` samples — exactly 250 when `n ≥ 250` and exactly `n`
when `n < 250`; and after 260 appends the window holds exactly 250
samples whose first (oldest) entry is the 11th appended sample. -/
theorem claim_C1_sliding_window_truncation :
    (∀ n : Nat, (read_window (simulatorRun n)).length = min n 250) ∧
    (∀ n : Nat, 250 ≤ n → (read_window (simulatorRun n)).length = 250) ∧
    (∀ n : Nat, n < 250 → (read_window (simulatorRun n)).length = n) ∧
    (read_window (simulatorRun 260)).length = 250 ∧
    (read_window (simulatorRun 260)).head? = some 11 := by
  have key : ∀ n : Nat,
      read_window (simulatorRun n) = List.range' (n - min n 250 + 1) (min n 250) := by
    intro n
    rw [simulatorRun_closed]
    rfl
  have klen : ∀ n : Nat, (read_window (simulatorRun n)).length = min n 250 := by
    intro n
    rw [key n, List.length_range']
  refine ⟨klen, fun n hn => ?_, fun n hn => ?_, ?_, ?_⟩
  · rw [klen n]; omega
  · rw [klen n]; omega
  · rw [klen 260]; norm_num
  · rw [key 260]
    rfl

/-- Witness for C1 at the concrete append counts 260 and 7. -/
theorem claim_C1_sliding_window_truncation_witness :
    (read_window (simulatorRun 260)).length = 250 ∧
    (read_window (simulatorRun 7)).length = 7 :=
  ⟨claim_C1_sliding_window_truncation.2.1 260 (by norm_num),
   claim_C1_sliding_window_truncation.2.2.1 7 (by norm_num)⟩

/-! ### src/sensors.py — offline peak-based BPM estimation -/

/-- Model of `np.mean` on a list of rationals: sum divided by length
(division by zero follows the rational convention `q / 0 = 0`; the code
never evaluates the mean of an empty list on its guarded path). -/
def npMean (l : List ℚ) : ℚ := l.sum / (l.length : ℚ)

/-- `calculate_bpm` (src/sensors.py lines 5-18): `60 / np.mean(rr)` when
the interval list is non-empty, `0` otherwise. -/
def calculate_bpm (rr_intervals : List ℚ) : ℚ :=
  if 0 < rr_intervals.length then 60 / npMean rr_intervals else 0

/-- Model of `np.diff`: differences of consecutive entries. -/
def npDiff (l : List ℚ) : List ℚ := List.zipWith (fun a b => b - a) l l.tail

/-- Array read `x[i]`, defaulting out-of-range reads to `0` (the guarded
control paths below only read in range). -/
def atD (x : List ℚ) (i : Nat) : ℚ := x.getD i 0

/-- Modelled from the spec: plateau scan of scipy's `_local_maxima_1d`
(external library code, not part of this repository) — the first index
`j ≥` the start whose value differs from the candidate value `v`, bounded
by `iMax`. -/
def plateauEnd (x : List ℚ) (iMax : Nat) (v : ℚ) : Nat → Nat → Nat
  | 0, j => j
  | fuel + 1, j =>
    if j < iMax ∧ atD x j = v then plateauEnd x iMax v fuel (j + 1) else j

/-- Modelled from the spec: scipy `_local_maxima_1d` (external library):
scan `i` from `1` while `i < n - 1`; where `x[i-1] < x[i]`, look past any
plateau of equal values and accept the plateau midpoint as a peak when
the signal then falls below the candidate value. -/
def localMaximaAux (x : List ℚ) : Nat → Nat → List Nat
  | 0, _ => []
  | fuel + 1, i =>
    if x.length ≤ i + 1 then []
    else if atD x (i - 1) < atD x i then
      let ahead := plateauEnd x (x.length - 1) (atD x i) x.length (i + 1)
      if atD x ahead < atD x i then
        (i + (ahead - 1)) / 2 :: localMaximaAux x fuel (ahead + 1)
      else
        localMaximaAux x fuel (i + 1)
    else
      localMaximaAux x fuel (i + 1)

/-- All local maxima of the signal, plateau midpoints included. -/
def localMaxima (x : List ℚ) : List Nat := localMaximaAux x x.length 1

/-- Insertion into a list ordered by descending amplitude (ties by
ascending position), modelling the priority order in which scipy's
`_select_by_peak_distance` visits candidates. -/
def insertByHeight (a : ℚ × Nat) : List (ℚ × Nat) → List (ℚ × Nat)
  | [] => [a]
  | b :: bs =>
    if b.1 < a.1 ∨ (a.1 = b.1 ∧ a.2 < b.2) then a :: b :: bs
    else b :: insertByHeight a bs

/-- Candidate positions sorted by descending amplitude. -/
def sortByHeightDesc (l : List (ℚ × Nat)) : List (ℚ × Nat) :=
  l.foldr insertByHeight []

/-- Clear the keep flag of every other candidate lying strictly closer
than `dist` samples to the surviving candidate at list position `j`. -/
def removeClose (peaks : List Nat) (dist : Nat) (j : Nat) (keep : List Bool) : List Bool :=
  (List.range keep.length).map fun k =>
    if k ≠ j ∧ ((peaks.getD k 0 : Int) - (peaks.getD j 0 : Int)).natAbs < dist then false
    else keep.getD k true

/-- Process candidates in priority order; a candidate still kept when its
turn comes suppresses all others within the distance. -/
def distanceLoop (peaks : List Nat) (dist : Nat) : List (ℚ × Nat) → List Bool → List Bool
  | [], keep => keep
  | (_, j) :: rest, keep =>
    if keep.getD j true then distanceLoop peaks dist rest (removeClose peaks dist j keep)
    else distanceLoop peaks dist rest keep

/-- Modelled from the spec: scipy `_select_by_peak_distance` (external
library): highest peaks first, each survivor removes every other
candidate strictly closer than `dist`. -/
def selectByPeakDistance (x : List ℚ) (peaks : List Nat) (dist : Nat) : List Nat :=
  let prio := sortByHeightDesc (peaks.enum.map fun e => (atD x e.2, e.1))
  let keep := distanceLoop peaks dist prio (peaks.map fun _ => true)
  (peaks.zip keep).filterMap fun pb => if pb.2 then some pb.1 else none

/-- Walk left from index `i` while the signal stays at or below the peak
value, tracking the running minimum (scipy `_peak_prominences`). -/
def walkLeftMin (x : List ℚ) (pv : ℚ) : Nat → Nat → ℚ → ℚ
  | 0, _, m => m
  | fuel + 1, i, m =>
    if 0 < i ∧ atD x i ≤ pv then walkLeftMin x pv fuel (i - 1) (min m (atD x (i - 1)))
    else m

/-- Walk right from index `i` while the signal stays at or below the peak
value, tracking the running minimum (scipy `_peak_prominences`). -/
def walkRightMin (x : List ℚ) (pv : ℚ) : Nat → Nat → ℚ → ℚ
  | 0, _, m => m
  | fuel + 1, i, m =>
    if i + 1 < x.length ∧ atD x i ≤ pv then
      walkRightMin x pv fuel (i + 1) (min m (atD x (i + 1)))
    else m

/-- Modelled from the spec: scipy `_peak_prominences` with unrestricted
window (external library): peak height above the higher of the two base
minima reached walking outwards until the signal rises above the peak. -/
def peakProminence (x : List ℚ) (p : Nat) : ℚ :=
  atD x p -
    max (walkLeftMin x (atD x p) x.length p (atD x p))
        (walkRightMin x (atD x p) x.length p (atD x p))

/-- Modelled from the spec: `scipy.signal.find_peaks(x, distance, prominence)`
(external library): local maxima, thinned by the distance condition, then
filtered by minimal prominence. -/
def find_peaks (x : List ℚ) (dist : Nat) (prom : ℚ) : List Nat :=
  (selectByPeakDistance x (localMaxima x) dist).filter fun p =>
    prom ≤ peakProminence x p

/-- Peak indices computed by `load_ecg_and_compute_bpm`
(src/sensors.py line 31): the signal is mean-centred, then
`find_peaks(ecg, distance=50, prominence=0.5)` is applied. -/
def detectedPeaks (ecg : List ℚ) : List Nat :=
  find_peaks (ecg.map fun v => v - npMean ecg) 50 (1 / 2)

/-- R-R intervals of `load_ecg_and_compute_bpm` (src/sensors.py line 34):
`np.diff(t[peaks])`. -/
def rrIntervals (t ecg : List ℚ) : List ℚ :=
  npDiff ((detectedPeaks ecg).map fun p => atD t p)

/-- `load_ecg_and_compute_bpm` (src/sensors.py lines 20-38), the CSV
columns `Time` and `ECG` passed as parallel lists: returns the time
array, the mean-centred signal, and the estimated BPM. -/
def load_ecg_and_compute_bpm (t ecg : List ℚ) : List ℚ × List ℚ × ℚ :=
  (t, ecg.map fun v => v - npMean ecg, calculate_bpm (rrIntervals t ecg))

/-- C2: for every input waveform, the estimator returns
`60 / mean(R-R intervals)` — the R-R intervals being the time differences
of consecutive accepted peaks — whenever at least two peaks (hence at
least one interval) were detected, and exactly `0` when fewer than two
peaks are found; every branch returns a value, so the degenerate case is
a result, not an exception. -/
theorem claim_C2_bpm_mean_rr_or_zero (t ecg : List ℚ) :
    (load_ecg_and_compute_bpm t ecg).2.2 =
      if 2 ≤ (detectedPeaks ecg).length then 60 / npMean (rrIntervals t ecg)
      else 0 := by
  have hlen : (rrIntervals t ecg).length = (detectedPeaks ecg).length - 1 := by
    unfold rrIntervals npDiff
    rw [List.length_zipWith, List.length_tail, List.length_map]
    omega
  show calculate_bpm (rrIntervals t ecg) = _
  unfold calculate_bpm
  rw [hlen]
  by_cases h : 2 ≤ (detectedPeaks ecg).length
  · rw [if_pos (by omega), if_pos h]
  · rw [if_neg (by omega), if_neg h]

/-- C10: `calculate_bpm` guards only against an empty interval list: the
empty list yields `0`, and every non-empty list goes straight to the
division `60 / mean` with no guard on the mean itself; under the
precondition `0 < mean` the divisor is non-zero, so the division is
well-defined and equals the returned value. -/
theorem claim_C10_calculate_bpm_empty_guard_only :
    (calculate_bpm [] = 0) ∧
    (∀ l : List ℚ, l ≠ [] → calculate_bpm l = 60 / npMean l) ∧
    (∀ l : List ℚ, l ≠ [] → 0 < npMean l →
      npMean l ≠ 0 ∧ calculate_bpm l = 60 / npMean l) := by
  have key : ∀ l : List ℚ, l ≠ [] → calculate_bpm l = 60 / npMean l := by
    intro l hl
    unfold calculate_bpm
    rw [if_pos (List.length_pos.mpr hl)]
  exact ⟨rfl, key, fun l hl hm => ⟨ne_of_gt hm, key l hl⟩⟩

/-- Witness for C10 on the one-interval list `[4/5]`. -/
theorem claim_C10_calculate_bpm_empty_guard_only_witness :
    calculate_bpm [(4 : ℚ) / 5] = 75 ∧ npMean [(4 : ℚ) / 5] ≠ 0 := by
  have h := claim_C10_calculate_bpm_empty_guard_only.2.2 [(4 : ℚ) / 5]
    (by simp) (by norm_num [npMean])
  refine ⟨?_, h.1⟩
  rw [h.2]
  norm_num [npMean]

/-! ### Waveform synthesis (src/simulator.py and src/app.py) -/

/-- Exercise phase driving the IMU model. -/
inductive ExercisePhase
  | extension
  | flexion
deriving DecidableEq, Repr

/-- Oracle for the transcendental numpy functions used by the
generators, supplied as explicit data so every definition stays
executable: `sin x` models `np.sin(x)`, `sinpi x` models
`np.sin(np.pi * x)`, `cos x` models `np.cos(x)`, `exp x` models
`np.exp(x)`. -/
structure Trig where
  sin : ℚ → ℚ
  sinpi : ℚ → ℚ
  cos : ℚ → ℚ
  exp : ℚ → ℚ

/-- The constant oracle, used to evaluate the generators at concrete
transcendental values. -/
def constTrig (c : ℚ) : Trig :=
  ⟨fun _ => c, fun _ => c, fun _ => c, fun _ => c⟩

/-- Rational remainder `a % b` as Python computes it for `b > 0`:
`a - b * ⌊a / b⌋`. -/
def qmod (a b : ℚ) : ℚ := a - b * (⌊a / b⌋ : ℚ)

/-- `generate_ecg_sample` of src/simulator.py (lines 20-57): the
piecewise PQRST model on the beat-normalized time, plus the Gaussian
draw `noise` (`np.random.normal(0, 0.01)`).  The returned status is the
constant `"NORMAL"` — no condition ever produces a flag here. -/
def generate_ecg_sample_sim (T : Trig) (t noise base_bpm : ℚ) : ℚ × EcgStatus :=
  let heart_rate := base_bpm / 60
  let beat_period := 1 / heart_rate
  let t_in_beat := qmod t beat_period
  let normalized_t := t_in_beat / beat_period
  let ecg :=
    if 0 ≤ normalized_t ∧ normalized_t < 12 / 100 then
      let p_phase := normalized_t / (12 / 100)
      12 / 100 * T.sinpi p_phase
    else if 15 / 100 ≤ normalized_t ∧ normalized_t < 30 / 100 then
      let qrs_phase := (normalized_t - 15 / 100) / (15 / 100)
      if qrs_phase < 1 / 10 then
        (-(5 / 100)) * T.sinpi (qrs_phase / (1 / 10))
      else if qrs_phase < 4 / 10 then
        let r_inner := (qrs_phase - 1 / 10) / (3 / 10);
        1 * T.sinpi r_inner
      else
        let s_inner := (qrs_phase - 4 / 10) / (6 / 10);
        (-(1 / 10)) * T.sinpi s_inner
    else if 40 / 100 ≤ normalized_t ∧ normalized_t < 65 / 100 then
      let t_phase := (normalized_t - 40 / 100) / (25 / 100)
      25 / 100 * T.sinpi t_phase
    else
      0
  (ecg + noise, EcgStatus.NORMAL)

/-- `generate_imu_sample` of src/simulator.py (lines 59-75): knee angle
`45 + 15·sin(2π·0.3t)` in extension, `60 + 35·sin(2π·0.3t)` in flexion,
clamped to `[0, 100]` by `max(0, min(100, base_angle))`; `noiseY` is the
draw for `accel_y` and `noiseZ` the draw added to the gravity offset
`9.81`.  The returned status is the constant `"NORMAL"`. -/
def generate_imu_sample_sim (T : Trig) (t : ℚ) (phase : ExercisePhase)
    (noiseY noiseZ : ℚ) : ℚ × ℚ × ℚ × ℚ × ℚ × ℚ × ImuStatus :=
  let cycle_time := t * (3 / 10)
  let base_angle :=
    if phase = ExercisePhase.extension then 45 + 15 * T.sinpi (2 * cycle_time)
    else 60 + 35 * T.sinpi (2 * cycle_time)
  let angle := max 0 (min 100 base_angle)
  (angle, noiseY, 981 / 100 + noiseZ, 0, 0, 0, ImuStatus.NORMAL)

/-- `generate_ecg_sample` of src/app.py (lines 3508-3517): a half-unit
sinusoid at the heart rate plus a Gaussian QRS bump while
`0.1 < t mod period < 0.2`, plus the Gaussian draw `noise`
(`np.random.normal(0, 0.05)`); the sample is flagged
`RED_FLAG_ARRHYTHMIA` exactly when `abs(noise) > 0.12`. -/
def generate_ecg_sample_app (T : Trig) (t noise base_bpm : ℚ) : ℚ × EcgStatus :=
  let heart_rate := base_bpm / 60
  let ecg0 := 1 / 2 * T.sinpi (2 * heart_rate * t)
  let qrs_time := qmod t (1 / heart_rate)
  let ecg1 :=
    if 1 / 10 < qrs_time ∧ qrs_time < 2 / 10 then
      ecg0 + 8 / 10 * T.exp (-((qrs_time - 15 / 100) ^ 2) / (1 / 1000))
    else ecg0
  (ecg1 + noise,
   if 12 / 100 < |noise| then EcgStatus.RED_FLAG_ARRHYTHMIA else EcgStatus.NORMAL)

/-- `generate_imu_sample` of src/app.py (lines 3519-3528): the knee angle
is `min(90, 45·sin(0.5t) + 45)` in extension and `max(0, 90 − 45·sin(0.5t))`
in flexion; `noiseY` is the `accel_y` draw (`np.random.normal(0, 2)`),
`noiseZ` the `accel_z` draw (`np.random.normal(10, 1)`), `gyroNoiseY` and
`gyroNoiseZ` the `gyro_y`/`gyro_z` draws; the sample is flagged
`RED_FLAG_FATIGUE` exactly when `abs(accel_y) > 5 or abs(gyro_y) > 3`. -/
def generate_imu_sample_app (T : Trig) (t : ℚ) (phase : ExercisePhase)
    (noiseY noiseZ gyroNoiseY gyroNoiseZ : ℚ) :
    ℚ × ℚ × ℚ × ℚ × ℚ × ℚ × ImuStatus :=
  let angle :=
    if phase = ExercisePhase.extension then min 90 (45 * T.sin (1 / 2 * t) + 45)
    else max 0 (90 - 45 * T.sin (1 / 2 * t))
  let accel_y := noiseY
  let gyro_y := gyroNoiseY
  (angle, accel_y, noiseZ, 20 * T.cos (1 / 2 * t), gyro_y, gyroNoiseZ,
   if 5 < |accel_y| ∨ 3 < |gyro_y| then ImuStatus.RED_FLAG_FATIGUE
   else ImuStatus.NORMAL)

/-- The knee angle reported as `accel_x` by the simulator.py IMU model. -/
def kneeAngleSim (T : Trig) (t : ℚ) (phase : ExercisePhase) : ℚ :=
  (generate_imu_sample_sim T t phase 0 0).1

/-- The knee angle reported as `accel_x` by the app.py IMU model. -/
def kneeAngleApp (T : Trig) (t : ℚ) (phase : ExercisePhase) : ℚ :=
  (generate_imu_sample_app T t phase 0 0 0 0).1

/-- C4 counterexample: in the app.py IMU model in FLEXION, at a time `t`
with `sin(0.5 t) = −1` (for the real sine, `t = 3π`), the knee angle is
`max 0 (90 − 45·(−1)) = 135`, which is outside `[0, 100]`. -/
theorem claim_C4_counterexample :
    kneeAngleApp (constTrig (-1)) 0 ExercisePhase.flexion = 135 ∧
    ¬kneeAngleApp (constTrig (-1)) 0 ExercisePhase.flexion ≤ 100 := by
  have h : kneeAngleApp (constTrig (-1)) 0 ExercisePhase.flexion = 135 := by
    simp only [kneeAngleApp, generate_imu_sample_app, constTrig]
    rw [if_neg (by simp)]
    norm_num [max_def]
  exact ⟨h, by rw [h]; norm_num⟩

/-- C4 amended: the simulator.py knee-angle output lies within `[0, 100]`
for every `t` and both ExercisePhase values (explicit clamp); in the
app.py variant only the EXTENSION output lies within `[0, 100]`, while
the FLEXION output is bounded by `[0, 135]` and can exceed 100. -/
theorem claim_C4_amended_knee_angle_bounds :
    (∀ (T : Trig) (t : ℚ) (phase : ExercisePhase),
      0 ≤ kneeAngleSim T t phase ∧ kneeAngleSim T t phase ≤ 100) ∧
    (∀ T : Trig, (∀ x, |T.sin x| ≤ 1) → ∀ t : ℚ,
      0 ≤ kneeAngleApp T t ExercisePhase.extension ∧
      kneeAngleApp T t ExercisePhase.extension ≤ 100) ∧
    (∀ T : Trig, (∀ x, |T.sin x| ≤ 1) → ∀ t : ℚ,
      0 ≤ kneeAngleApp T t ExercisePhase.flexion ∧
      kneeAngleApp T t ExercisePhase.flexion ≤ 135) := by
  refine ⟨fun T t phase => ?_, fun T hT t => ?_, fun T hT t => ?_⟩
  · unfold kneeAngleSim generate_imu_sample_sim
    constructor
    · exact le_max_left 0 _
    · exact max_le (by norm_num) (min_le_left _ _)
  · unfold kneeAngleApp generate_imu_sample_app
    obtain ⟨hlo, hhi⟩ := abs_le.mp (hT (1 / 2 * t))
    simp only [if_pos rfl]
    constructor
    · exact le_min (by norm_num) (by linarith)
    · exact le_trans (min_le_left _ _) (by norm_num)
  · unfold kneeAngleApp generate_imu_sample_app
    obtain ⟨hlo, hhi⟩ := abs_le.mp (hT (1 / 2 * t))
    simp only [reduceCtorEq, if_false]
    constructor
    · exact le_max_left 0 _
    · exact max_le (by norm_num) (by linarith)

/-- Witness for C4 (amended) at the constant-zero oracle and `t = 1`. -/
theorem claim_C4_amended_knee_angle_bounds_witness :
    (0 ≤ kneeAngleSim (constTrig 0) 1 ExercisePhase.flexion ∧
      kneeAngleSim (constTrig 0) 1 ExercisePhase.flexion ≤ 100) ∧
    (0 ≤ kneeAngleApp (constTrig 0) 1 ExercisePhase.extension ∧
      kneeAngleApp (constTrig 0) 1 ExercisePhase.extension ≤ 100) ∧
    (0 ≤ kneeAngleApp (constTrig 0) 1 ExercisePhase.flexion ∧
      kneeAngleApp (constTrig 0) 1 ExercisePhase.flexion ≤ 135) :=
  ⟨claim_C4_amended_knee_angle_bounds.1 (constTrig 0) 1 ExercisePhase.flexion,
   claim_C4_amended_knee_angle_bounds.2.1 (constTrig 0)
     (fun x => by norm_num [constTrig]) 1,
   claim_C4_amended_knee_angle_bounds.2.2 (constTrig 0)
     (fun x => by norm_num [constTrig]) 1⟩

/-- C5 counterexample: the biconditional fails for the simulator.py
generator, whose samples are never flagged: with noise draw `1` — far
above `0.12`, the only fixed arrhythmia threshold in the code — the
returned ECG status is still NORMAL. -/
theorem claim_C5_counterexample :
    (12 / 100 : ℚ) < |(1 : ℚ)| ∧
    (generate_ecg_sample_sim (constTrig 0) 0 1 75).2 = EcgStatus.NORMAL := by
  constructor
  · norm_num
  · rfl

/-- C5 amended: in the app.py generators the ECG status is
RED_FLAG_ARRHYTHMIA precisely when the injected noise magnitude exceeds
the fixed threshold 0.12, and the IMU status is RED_FLAG_FATIGUE
precisely when `|accel_y| > 5` or `|gyro_y| > 3`; the simulator.py
generators return NORMAL unconditionally on both channels. -/
theorem claim_C5_amended_status_thresholds :
    (∀ (T : Trig) (t noise bpm : ℚ),
      (generate_ecg_sample_app T t noise bpm).2 = EcgStatus.RED_FLAG_ARRHYTHMIA ↔
        12 / 100 < |noise|) ∧
    (∀ (T : Trig) (t : ℚ) (phase : ExercisePhase) (ny nz gy gz : ℚ),
      (generate_imu_sample_app T t phase ny nz gy gz).2.2.2.2.2.2 =
          ImuStatus.RED_FLAG_FATIGUE ↔
        (5 < |ny| ∨ 3 < |gy|)) ∧
    (∀ (T : Trig) (t noise bpm : ℚ),
      (generate_ecg_sample_sim T t noise bpm).2 = EcgStatus.NORMAL) ∧
    (∀ (T : Trig) (t : ℚ) (phase : ExercisePhase) (ny nz : ℚ),
      (generate_imu_sample_sim T t phase ny nz).2.2.2.2.2.2 = ImuStatus.NORMAL) := by
  refine ⟨fun T t noise bpm => ?_, fun T t phase ny nz gy gz => ?_,
    fun T t noise bpm => rfl, fun T t phase ny nz => rfl⟩
  · show (if 12 / 100 < |noise| then EcgStatus.RED_FLAG_ARRHYTHMIA
      else EcgStatus.NORMAL) = _ ↔ _
    split_ifs with h <;> simp [h]
  · show (if 5 < |ny| ∨ 3 < |gy| then ImuStatus.RED_FLAG_FATIGUE
      else ImuStatus.NORMAL) = _ ↔ _
    split_ifs with h <;> simp [h]

/-! ### Exercise-phase toggling (`run_simulator` loops) -/

/-- Exercise phase chosen by `run_simulator` in src/simulator.py
(line 90): `'extension' if (sample_count // 100) % 2 == 0 else 'flexion'`. -/
def exercisePhaseSim (sample_count : Nat) : ExercisePhase :=
  if sample_count / 100 % 2 = 0 then ExercisePhase.extension
  else ExercisePhase.flexion

/-- Exercise phase chosen by `run_simulator` in src/app.py (line 3544):
`'extension' if (sample_count // 20) % 2 == 0 else 'flexion'`. -/
def exercisePhaseApp (sample_count : Nat) : ExercisePhase :=
  if sample_count / 20 % 2 = 0 then ExercisePhase.extension
  else ExercisePhase.flexion

/-- C7: the exercise phase is a deterministic function of the running
sample count alone — EXTENSION when `(c / M) % 2` is even and FLEXION
when it is odd, with toggle period `M = 100` in simulator.py and
`M = 20` in app.py; moreover the phase is constant on each block of `M`
produced samples and switches at every block boundary. -/
theorem claim_C7_phase_function_of_count :
    (∀ c, exercisePhaseSim c = ExercisePhase.extension ↔ c / 100 % 2 = 0) ∧
    (∀ c, exercisePhaseSim c = ExercisePhase.flexion ↔ c / 100 % 2 = 1) ∧
    (∀ c, exercisePhaseApp c = ExercisePhase.extension ↔ c / 20 % 2 = 0) ∧
    (∀ c, exercisePhaseApp c = ExercisePhase.flexion ↔ c / 20 % 2 = 1) ∧
    (∀ k r, r < 100 → exercisePhaseSim (100 * k + r) = exercisePhaseSim (100 * k)) ∧
    (∀ c, exercisePhaseSim (c + 100) ≠ exercisePhaseSim c) ∧
    (∀ k r, r < 20 → exercisePhaseApp (20 * k + r) = exercisePhaseApp (20 * k)) ∧
    (∀ c, exercisePhaseApp (c + 20) ≠ exercisePhaseApp c) := by
  refine ⟨fun c => ?_, fun c => ?_, fun c => ?_, fun c => ?_,
    fun k r hr => ?_, fun c => ?_, fun k r hr => ?_, fun c => ?_⟩
  · unfold exercisePhaseSim; split_ifs with h <;> simp [h]
  · unfold exercisePhaseSim
    split_ifs with h
    · simp [h]
    · simp only [h]
      simp
      omega
  · unfold exercisePhaseApp; split_ifs with h <;> simp [h]
  · unfold exercisePhaseApp
    split_ifs with h
    · simp [h]
    · simp only [h]
      simp
      omega
  · unfold exercisePhaseSim
    have h : (100 * k + r) / 100 = 100 * k / 100 := by omega
    rw [h]
  · unfold exercisePhaseSim
    have h : (c + 100) / 100 = c / 100 + 1 := by omega
    rw [h]
    split_ifs with h1 h2 h2 <;> simp_all <;> omega
  · unfold exercisePhaseApp
    have h : (20 * k + r) / 20 = 20 * k / 20 := by omega
    rw [h]
  · unfold exercisePhaseApp
    have h : (c + 20) / 20 = c / 20 + 1 := by omega
    rw [h]
    split_ifs with h1 h2 h2 <;> simp_all <;> omega

/-- Witness for C7 at `k = 2`, `r = 7` and `c = 260`. -/
theorem claim_C7_phase_function_of_count_witness :
    exercisePhaseSim (100 * 2 + 7) = exercisePhaseSim (100 * 2) ∧
    exercisePhaseApp (20 * 2 + 7) = exercisePhaseApp (20 * 2) :=
  ⟨claim_C7_phase_function_of_count.2.2.2.2.1 2 7 (by norm_num),
   claim_C7_phase_function_of_count.2.2.2.2.2.2.1 2 7 (by norm_num)⟩

/-! ### Consumer callbacks (src/app.py) -/

/-- One parsed data row of the stream CSV, restricted to the fields the
consumer callbacks read. -/
structure Row where
  timestamp : ℚ
  ecg : ℚ
  accel_x : ℚ
  status_ecg : EcgStatus
  status_imu : ImuStatus
deriving DecidableEq, Repr

/-- `df.tail(n)`: the last `n` rows (all of them when fewer exist). -/
def tail {α : Type} (n : Nat) (rows : List α) : List α :=
  rows.drop (rows.length - n)

/-- The OR-reduction `(df['status_ecg'] == 'RED_FLAG_ARRHYTHMIA').any()`
shared by all three consumer callbacks. -/
def ecgWarning (rows : List Row) : Bool :=
  rows.any fun r => r.status_ecg == EcgStatus.RED_FLAG_ARRHYTHMIA

/-- The OR-reduction `(df['status_imu'] == 'RED_FLAG_FATIGUE').any()`. -/
def imuWarning (rows : List Row) : Bool :=
  rows.any fun r => r.status_imu == ImuStatus.RED_FLAG_FATIGUE

/-- Python `max` over a non-empty list (`max(y_data)` in the dashboard
callback), with an unreached default for the empty list. -/
def pyMax : List ℚ → ℚ
  | [] => 0
  | a :: rest => rest.foldl max a

/-- Data-flow core of `update_main_dashboard_auto` (src/app.py lines
1908-1964): the transport is `none` when the stream file does not exist;
a `none` result models `dash.no_update`.  Otherwise the callback reads
the last 50 rows, computes the OR-reduced arrhythmia flag and the display
BPM `75 + max(y_data) * 5`. -/
def update_main_dashboard_auto (pathIsRoot : Bool) (transport : Option (List Row)) :
    Option (Bool × ℚ) :=
  if pathIsRoot = false ∨ transport = none then none
  else
    let df := tail 50 (transport.getD [])
    if df.isEmpty then none
    else some (ecgWarning df, 75 + pyMax (df.map Row.ecg) * 5)

/-- What `monitor_patient_health` renders: the two alert banners and the
graph line colour (red exactly on the arrhythmia reduction). -/
structure HealthView where
  arrhythmiaAlert : Bool
  fatigueAlert : Bool
  lineIsRed : Bool
deriving DecidableEq, Repr

/-- Data-flow core of `monitor_patient_health` (src/app.py lines
1978-2008): no-op without a selected patient or a stream file; otherwise
the alerts are OR-reductions over the last 100 rows. -/
def monitor_patient_health (patientSelected : Bool) (transport : Option (List Row)) :
    Option HealthView :=
  if patientSelected = false ∨ transport = none then none
  else
    let df := tail 100 (transport.getD [])
    some ⟨ecgWarning df, imuWarning df, ecgWarning df⟩

/-- What `update_sensor_charts` renders. -/
inductive SensorView
  | waiting
  | collecting
  | charts (hasArrhythmia hasFatigue : Bool)
deriving DecidableEq, Repr

/-- Data-flow core of `update_sensor_charts` (src/app.py lines
3428-3501): the waiting placeholder when the modal is closed or the
stream file is missing; the collecting placeholder when fewer than two
rows were read; otherwise the charts with OR-reduced flags over the last
50 rows. -/
def update_sensor_charts (isOpen : Bool) (transport : Option (List Row)) :
    SensorView :=
  if isOpen = false ∨ transport = none then SensorView.waiting
  else
    let df := tail 50 (transport.getD [])
    if df.length < 2 then SensorView.collecting
    else SensorView.charts (ecgWarning df) (imuWarning df)

/-- A non-empty row list keeps a non-empty tail under `df.tail(n)` for
`n > 0`. -/
lemma tail_ne_nil {α : Type} (n : Nat) (hn : 0 < n) (rows : List α) (h : rows ≠ []) :
    tail n rows ≠ [] := by
  unfold tail
  rw [Ne, List.drop_eq_nil_iff]
  have : 0 < rows.length := List.length_pos.mpr h
  omega

/-- The dashboard callback on an existing, non-empty transport: flag and
BPM are computed from the last 50 rows. -/
lemma update_main_dashboard_auto_eq (rows : List Row) (h : rows ≠ []) :
    update_main_dashboard_auto true (some rows) =
      some (ecgWarning (tail 50 rows),
        75 + pyMax ((tail 50 rows).map Row.ecg) * 5) := by
  unfold update_main_dashboard_auto
  rw [if_neg (by simp)]
  have hne : tail 50 rows ≠ [] := tail_ne_nil 50 (by norm_num) rows h
  simp only [Option.getD_some]
  rw [if_neg (by simpa [List.isEmpty_iff] using hne)]

/-- An OR-reduction over unflagged rows is false. -/
lemma ecgWarning_eq_false (rows : List Row)
    (h : ∀ r ∈ rows, r.status_ecg ≠ EcgStatus.RED_FLAG_ARRHYTHMIA) :
    ecgWarning rows = false := by
  unfold ecgWarning
  rw [List.any_eq_false]
  intro r hr
  simpa [beq_iff_eq] using h r hr

/-- C3: for every window read from the transport, the classifier reports
the arrhythmia flag iff at least one sample in that window carries
`status_ecg == RED_FLAG_ARRHYTHMIA` — an OR over the whole window; in
particular a flag on any non-latest sample (here: the oldest) already
reports. -/
theorem claim_C3_classifier_or_reduction :
    (∀ rows : List Row, ecgWarning rows = true ↔
      ∃ r ∈ rows, r.status_ecg = EcgStatus.RED_FLAG_ARRHYTHMIA) ∧
    (∀ (r : Row) (rest : List Row),
      r.status_ecg = EcgStatus.RED_FLAG_ARRHYTHMIA →
      ecgWarning (r :: rest) = true) := by
  have key : ∀ rows : List Row, ecgWarning rows = true ↔
      ∃ r ∈ rows, r.status_ecg = EcgStatus.RED_FLAG_ARRHYTHMIA := by
    intro rows
    unfold ecgWarning
    rw [List.any_eq_true]
    simp [beq_iff_eq]
  exact ⟨key, fun r rest hr =>
    (key (r :: rest)).mpr ⟨r, List.mem_cons_self r rest, hr⟩⟩

/-- Rows used by the concrete witnesses below. -/
def redRow : Row :=
  ⟨0, 1, 0, EcgStatus.RED_FLAG_ARRHYTHMIA, ImuStatus.NORMAL⟩

/-- An unflagged row used by the concrete witnesses below. -/
def normalRow : Row :=
  ⟨0, 1, 0, EcgStatus.NORMAL, ImuStatus.NORMAL⟩

/-- Witness for C3: a window whose only flagged sample is the oldest
still reports the flag. -/
theorem claim_C3_classifier_or_reduction_witness :
    ecgWarning (redRow :: [normalRow, normalRow]) = true :=
  claim_C3_classifier_or_reduction.2 redRow [normalRow, normalRow] rfl

/-- C6: a missing transport is never fatal for a reader: with no stream
file each consumer callback returns its no-data result — `dash.no_update`
for the two dashboard callbacks and the waiting placeholder for the
sensor charts — for every value of its other inputs, and no exception
escapes (the functions are total). -/
theorem claim_C6_missing_transport_reads_empty :
    (∀ pathIsRoot, update_main_dashboard_auto pathIsRoot none = none) ∧
    (∀ patientSelected, monitor_patient_health patientSelected none = none) ∧
    (∀ isOpen, update_sensor_charts isOpen none = SensorView.waiting) := by
  refine ⟨fun p => ?_, fun p => ?_, fun p => ?_⟩ <;>
    simp [update_main_dashboard_auto, monitor_patient_health, update_sensor_charts]

/-- C8: every consumer-side anomaly classification is computed from at
most the last 50 transport rows (the doctor-monitor view from the last
100), not from the full capacity-250 window: each callback result equals
the OR-reduction over `tail 50` (resp. `tail 100`) of the rows read, and
when those last rows are all unflagged the reduction is false — so a red
flag lying only before them yields a NORMAL result. -/
theorem claim_C8_classification_uses_recent_rows :
    (∀ rows : List Row, rows ≠ [] →
      update_main_dashboard_auto true (some rows) =
        some (ecgWarning (tail 50 rows),
          75 + pyMax ((tail 50 rows).map Row.ecg) * 5)) ∧
    (∀ rows : List Row,
      monitor_patient_health true (some rows) =
        some ⟨ecgWarning (tail 100 rows), imuWarning (tail 100 rows),
          ecgWarning (tail 100 rows)⟩) ∧
    (∀ rows : List Row, 2 ≤ (tail 50 rows).length →
      update_sensor_charts true (some rows) =
        SensorView.charts (ecgWarning (tail 50 rows)) (imuWarning (tail 50 rows))) ∧
    (∀ rows : List Row,
      (∀ r ∈ tail 50 rows, r.status_ecg ≠ EcgStatus.RED_FLAG_ARRHYTHMIA) →
      ecgWarning (tail 50 rows) = false) ∧
    (∀ rows : List Row,
      (∀ r ∈ tail 100 rows, r.status_ecg ≠ EcgStatus.RED_FLAG_ARRHYTHMIA) →
      ecgWarning (tail 100 rows) = false) := by
  refine ⟨update_main_dashboard_auto_eq, fun rows => ?_, fun rows h2 => ?_,
    fun rows h => ecgWarning_eq_false _ h, fun rows h => ecgWarning_eq_false _ h⟩
  · unfold monitor_patient_health
    rw [if_neg (by simp)]
    rfl
  · unfold update_sensor_charts
    rw [if_neg (by simp)]
    simp only [Option.getD_some]
    rw [if_neg (by omega)]

/-- Witness for C8: a transport of 51 rows whose single red flag is the
oldest row — outside the last 50 — classifies as no arrhythmia. -/
theorem claim_C8_classification_uses_recent_rows_witness :
    ecgWarning (tail 50 (redRow :: List.replicate 50 normalRow)) = false ∧
    update_main_dashboard_auto true (some [redRow]) =
      some (ecgWarning (tail 50 [redRow]),
        75 + pyMax ((tail 50 [redRow]).map Row.ecg) * 5) := by
  have htail : tail 50 (redRow :: List.replicate 50 normalRow) =
      List.replicate 50 normalRow := by
    simp [tail]
  refine ⟨claim_C8_classification_uses_recent_rows.2.2.2.1 _ ?_,
    claim_C8_classification_uses_recent_rows.1 [redRow] (by simp)⟩
  intro r hr
  rw [htail] at hr
  rw [List.eq_of_mem_replicate hr]
  simp [normalRow]

/-- The left fold of `max` dominates its seed and every list entry. -/
lemma le_foldl_max (l : List ℚ) (a : ℚ) :
    a ≤ l.foldl max a ∧ ∀ x ∈ l, x ≤ l.foldl max a := by
  induction l generalizing a with
  | nil => exact ⟨le_refl a, by simp⟩
  | cons b bs ih =>
    obtain ⟨h1, h2⟩ := ih (max a b)
    refine ⟨le_trans (le_max_left a b) h1, fun x hx => ?_⟩
    rcases List.mem_cons.mp hx with heq | hx
    · rw [heq]
      exact le_trans (le_max_right a b) h1
    · exact h2 x hx

/-- The left fold of `max` is the seed or one of the list entries. -/
lemma foldl_max_mem (l : List ℚ) (a : ℚ) :
    l.foldl max a = a ∨ l.foldl max a ∈ l := by
  induction l generalizing a with
  | nil => exact Or.inl rfl
  | cons b bs ih =>
    rcases ih (max a b) with h | h
    · rcases le_total a b with hab | hab
      · right
        rw [List.foldl_cons, h, max_eq_right hab]
        exact List.mem_cons_self b bs
      · left
        rw [List.foldl_cons, h, max_eq_left hab]
    · exact Or.inr (List.mem_cons_of_mem b h)

/-- `pyMax` of a non-empty list is its maximum: a member that bounds
every entry. -/
lemma pyMax_spec (l : List ℚ) (h : l ≠ []) :
    pyMax l ∈ l ∧ ∀ x ∈ l, x ≤ pyMax l := by
  match l, h with
  | a :: rest, _ =>
    have hpy : pyMax (a :: rest) = rest.foldl max a := rfl
    rw [hpy]
    obtain ⟨h1, h2⟩ := le_foldl_max rest a
    refine ⟨?_, fun x hx => ?_⟩
    · rcases foldl_max_mem rest a with h | h
      · rw [h]
        exact List.mem_cons_self a rest
      · exact List.mem_cons_of_mem a h
    · rcases List.mem_cons.mp hx with heq | hx
      · rw [heq]
        exact h1
      · exact h2 x hx

/-- C9: the live dashboard heart-rate readout is not peak-derived: for
every non-empty window read, the displayed BPM equals exactly
`75 + (max ecg) * 5` over the rows read (the last 50), where `pyMax` is
the true maximum — a member of the list bounding every entry. -/
theorem claim_C9_dashboard_bpm_from_max_amplitude :
    (∀ rows : List Row, rows ≠ [] →
      update_main_dashboard_auto true (some rows) =
        some (ecgWarning (tail 50 rows),
          75 + pyMax ((tail 50 rows).map Row.ecg) * 5) ∧
      pyMax ((tail 50 rows).map Row.ecg) ∈ (tail 50 rows).map Row.ecg ∧
      ∀ x ∈ (tail 50 rows).map Row.ecg, x ≤ pyMax ((tail 50 rows).map Row.ecg)) := by
  intro rows h
  have hne : (tail 50 rows).map Row.ecg ≠ [] := by
    simpa using tail_ne_nil 50 (by norm_num) rows h
  obtain ⟨h1, h2⟩ := pyMax_spec _ hne
  exact ⟨update_main_dashboard_auto_eq rows h, h1, h2⟩

/-- Witness for C9 on a two-row transport with ECG amplitudes 1 and 2. -/
theorem claim_C9_dashboard_bpm_from_max_amplitude_witness :
    update_main_dashboard_auto true
        (some [normalRow, ⟨0, 2, 0, EcgStatus.NORMAL, ImuStatus.NORMAL⟩]) =
      some (ecgWarning (tail 50 [normalRow, ⟨0, 2, 0, EcgStatus.NORMAL, ImuStatus.NORMAL⟩]),
        75 + pyMax ((tail 50 [normalRow, ⟨0, 2, 0, EcgStatus.NORMAL, ImuStatus.NORMAL⟩]).map
          Row.ecg) * 5) :=
  (claim_C9_dashboard_bpm_from_max_amplitude
    [normalRow, ⟨0, 2, 0, EcgStatus.NORMAL, ImuStatus.NORMAL⟩] (by simp)).1

end MonitorDash
